import Mathlib

/-
  Verification of the stub-routine lifecycle module
  (Source/JavaScriptCore/jit/GCAwareJITStubRoutine.cpp).

  The module manages dynamically generated code fragments whose lifetime is
  governed by two authorities: a reference-counting client graph and a tracing
  garbage collector.  We embed the routine state and each operation of the
  module as executable Lean definitions, mirroring the C++ source.  Assertions
  (ASSERT / RELEASE_ASSERT) are modelled as fatal: an operation whose assertion
  fails returns an explicit `assertionFailure` outcome instead of a state.
  Managed-heap objects and registry entries are identified by natural numbers.
-/

namespace JSC

/-- State of a compiled code unit (`CodeBlock`), as seen by this module.
`jitTypeIsOptimizing` models `JITCode::isOptimizingJIT(codeBlock->jitType())`
(the CodeBlock/JITCode classes are outside this module).  Modelled from the
spec: the HandlerTable collaborator maps call-site indices to exception
handler entries, and the code unit keeps auxiliary call-site metadata
(`dfgCommon()->removeCallSiteIndex`). -/
structure CodeBlock where
  jitTypeIsOptimizing : Bool
  dfgCallSiteIndices : List Nat
  handlerTable : List Nat
deriving DecidableEq

/-- Modelled from the spec: `handlerForIndex` reports whether the handler
table holds an entry for the given call-site index (HandlerTable lookup;
`CodeBlock::handlerForIndex` is outside this module). -/
def handlerForIndex (cb : CodeBlock) (i : Nat) : Bool :=
  cb.handlerTable.contains i

/-- Modelled from the spec: `removeCallSiteIndex` removes the call-site index
from the code unit's auxiliary metadata
(`jitCode()->dfgCommon()->removeCallSiteIndex`, outside this module). -/
def removeCallSiteIndex (cb : CodeBlock) (i : Nat) : CodeBlock :=
  { cb with dfgCallSiteIndices := cb.dfgCallSiteIndices.filter (fun j => j ≠ i) }

/-- Modelled from the spec: `removeExceptionHandlerForCallSite` removes the
handler-table entry for the given call-site index
(`CodeBlock::removeExceptionHandlerForCallSite`, outside this module). -/
def removeExceptionHandlerForCallSite (cb : CodeBlock) (i : Nat) : CodeBlock :=
  { cb with handlerTable := cb.handlerTable.filter (fun j => j ≠ i) }

/-- The closed set of GC-aware stub-routine shapes defined by the module.
`withExceptionHandler` carries the back-reference to the owning code unit
(`m_codeBlockWithExceptionHandler`, live or nulled) and
`m_exceptionHandlerCallSiteIndex`; `markingOne` carries the one managed
object retained by the routine (`m_object`). -/
inductive StubKind where
  | gcAware
  | markingOne (object : Nat)
  | withExceptionHandler (codeBlockWithExceptionHandler : Bool) (callSiteIndex : Nat)
deriving DecidableEq

/-- A GC-aware stub routine: reference count (held by the `JITStubRoutine`
base class), the two lifecycle booleans of `GCAwareJITStubRoutine`, and the
variant-specific data. -/
structure GCAwareJITStubRoutine where
  m_refCount : Nat
  m_mayBeExecuting : Bool
  m_isJettisoned : Bool
  kind : StubKind
deriving DecidableEq

/-- Outcome of a lifecycle operation: the routine survives with a new state
(`ok`), the routine is destroyed (`delete this`, `deleted`), or a defensive
assertion fired (fatal contract violation).  The code-unit state is carried
through because the exception-handler variant mutates it. -/
inductive StepResult where
  | ok (r : GCAwareJITStubRoutine) (cb : CodeBlock)
  | deleted (cb : CodeBlock)
  | assertionFailure
deriving DecidableEq

/-- `GCAwareJITStubRoutine::observeZeroRefCount()` (the base-class virtual):
if already jettisoned (shutdown path) it self-deletes immediately; otherwise
it checks `RELEASE_ASSERT(!m_refCount)` and marks the routine jettisoned. -/
def observeZeroRefCountBase (r : GCAwareJITStubRoutine) (cb : CodeBlock) : StepResult :=
  if r.m_isJettisoned then
    StepResult.deleted cb
  else if r.m_refCount ≠ 0 then
    StepResult.assertionFailure
  else
    StepResult.ok { r with m_isJettisoned := true } cb

/-- Virtual dispatch of `observeZeroRefCount()`.  The
`GCAwareJITStubRoutineWithExceptionHandler` override first, when the
back-reference is still live, removes the call-site index from the code
unit's metadata, removes the handler-table entry, and nulls the
back-reference, then delegates to the base implementation.  (The cleanup is
guarded by ENABLE(DFG_JIT) in the source; it is modelled enabled, the only
configuration in which this variant is constructed, since the factory
requires an optimizing-JIT code unit.) -/
def observeZeroRefCount (r : GCAwareJITStubRoutine) (cb : CodeBlock) : StepResult :=
  match r.kind with
  | StubKind.withExceptionHandler backRef i =>
    if backRef then
      observeZeroRefCountBase
        { r with kind := StubKind.withExceptionHandler false i }
        (removeExceptionHandlerForCallSite (removeCallSiteIndex cb i) i)
    else
      observeZeroRefCountBase r cb
  | _ => observeZeroRefCountBase r cb

/-- `GCAwareJITStubRoutine::deleteFromGC()`: asserts
`m_isJettisoned`, `!m_refCount` and `!m_mayBeExecuting`, then destroys the
routine. -/
def deleteFromGC (r : GCAwareJITStubRoutine) (cb : CodeBlock) : StepResult :=
  if r.m_isJettisoned && r.m_refCount == 0 && !r.m_mayBeExecuting then
    StepResult.deleted cb
  else
    StepResult.assertionFailure

/-- `GCAwareJITStubRoutineWithExceptionHandler::aboutToDie()`: nulls the
back-reference to the owning code unit; the base-class `aboutToDie` is a
no-op, so the other variants are unchanged. -/
def aboutToDie (r : GCAwareJITStubRoutine) : GCAwareJITStubRoutine :=
  match r.kind with
  | StubKind.withExceptionHandler _ i =>
    { r with kind := StubKind.withExceptionHandler false i }
  | _ => r

/-- `markRequiredObjectsInternal(SlotVisitor&)`: the base class reports
nothing; `MarkingGCAwareJITStubRoutineWithOneObject` appends its one retained
object to the visitor (`visitor.append(&m_object)`).  The visitor is modelled
as the list of objects visited so far. -/
def markRequiredObjectsInternal (r : GCAwareJITStubRoutine) (visitor : List Nat) :
    List Nat :=
  match r.kind with
  | StubKind.markingOne object => visitor ++ [object]
  | _ => visitor

/-- Modelled from the spec: `JITStubRoutine::release()` (the base class is
outside this module) decrements the reference count and, when it reaches
zero, invokes `observeZeroRefCount()` exactly once; decrementing below zero
is a fatal contract violation. -/
def release (r : GCAwareJITStubRoutine) (cb : CodeBlock) : StepResult :=
  if r.m_refCount = 0 then
    StepResult.assertionFailure
  else
    let r2 := { r with m_refCount := r.m_refCount - 1 }
    if r2.m_refCount = 0 then observeZeroRefCount r2 cb
    else StepResult.ok r2 cb

/-- Iterated `release()`, stopping at deletion or assertion failure. -/
def releaseN : Nat → GCAwareJITStubRoutine → CodeBlock → StepResult
  | 0, r, cb => StepResult.ok r cb
  | Nat.succ n, r, cb =>
    match release r cb with
    | StepResult.ok r2 cb2 => releaseN n r2 cb2
    | out => out

/-- Modelled from the spec: the RootRegistry is the collector's set of all
live GC-aware routines; `vm.heap.m_jitStubRoutines.add(this)` registers a
routine at construction time.  Registry entries are routine identities. -/
def registryAdd (registry : List Nat) (id : Nat) : List Nat :=
  registry ++ [id]

/-- `GCAwareJITStubRoutine::GCAwareJITStubRoutine`: initializes
`m_mayBeExecuting = false` and `m_isJettisoned = false` and registers the
routine with the heap's stub-routine set.  The reference count lives in the
base class (outside this module) and is passed in as the number of client
references the caller holds. -/
def GCAwareJITStubRoutineConstruct (refCount : Nat) (registry : List Nat)
    (id : Nat) : GCAwareJITStubRoutine × List Nat :=
  (⟨refCount, false, false, StubKind.gcAware⟩, registryAdd registry id)

/-- `MarkingGCAwareJITStubRoutineWithOneObject` constructor: the base
constructor (which registers the routine) plus the one retained object. -/
def MarkingConstruct (refCount object : Nat) (registry : List Nat) (id : Nat) :
    GCAwareJITStubRoutine × List Nat :=
  (⟨refCount, false, false, StubKind.markingOne object⟩, registryAdd registry id)

/-- Outcome of a constructor that carries defensive assertions. -/
inductive ConstructResult where
  | ok (r : GCAwareJITStubRoutine) (registry : List Nat)
  | assertionFailure
deriving DecidableEq

/-- `GCAwareJITStubRoutineWithExceptionHandler` constructor: registers via the
base constructor, records the live back-reference and call-site index, and
asserts that the code unit already has a handler entry for that call site
(`ASSERT(!!m_codeBlockWithExceptionHandler->handlerForIndex(...))`; the
non-null check `RELEASE_ASSERT(m_codeBlockWithExceptionHandler)` holds by
construction here since a code unit is supplied). -/
def ExceptionHandlerConstruct (refCount : Nat) (cb : CodeBlock)
    (callSiteIndex : Nat) (registry : List Nat) (id : Nat) : ConstructResult :=
  if handlerForIndex cb callSiteIndex then
    ConstructResult.ok
      ⟨refCount, false, false, StubKind.withExceptionHandler true callSiteIndex⟩
      (registryAdd registry id)
  else
    ConstructResult.assertionFailure

/-- Outcome of the factory: a plain (non-GC-registered) `JITStubRoutine`, a
GC-aware routine that was registered at construction, or a fatal assertion.
Each carrying the registry contents after the call. -/
inductive FactoryOutcome where
  | plainStub (registry : List Nat)
  | gcRoutine (r : GCAwareJITStubRoutine) (registry : List Nat)
  | assertionFailure
deriving DecidableEq

/-- `createJITStubRoutine`: the single construction entry point.  If the stub
makes no calls it is a plain `JITStubRoutine` (no GC registration).  If a
code unit for exception handlers is supplied, it asserts
`RELEASE_ASSERT(!object)` and `RELEASE_ASSERT(JITCode::isOptimizingJIT(...))`
and builds the exception-handler variant.  Otherwise the presence of a
retained object selects the marking variant over the plain GC-aware one. -/
def createJITStubRoutine (makesCalls : Bool) (object : Option Nat)
    (codeBlockForExceptionHandlers : Option CodeBlock)
    (exceptionHandlerCallSiteIndex : Nat) (refCount : Nat)
    (registry : List Nat) (id : Nat) : FactoryOutcome :=
  if !makesCalls then
    FactoryOutcome.plainStub registry
  else
    match codeBlockForExceptionHandlers with
    | some cb =>
      if object.isSome then
        FactoryOutcome.assertionFailure
      else if !cb.jitTypeIsOptimizing then
        FactoryOutcome.assertionFailure
      else
        match ExceptionHandlerConstruct refCount cb exceptionHandlerCallSiteIndex
            registry id with
        | ConstructResult.ok r reg => FactoryOutcome.gcRoutine r reg
        | ConstructResult.assertionFailure => FactoryOutcome.assertionFailure
    | none =>
      match object with
      | none =>
        let p := GCAwareJITStubRoutineConstruct refCount registry id
        FactoryOutcome.gcRoutine p.1 p.2
      | some o =>
        let p := MarkingConstruct refCount o registry id
        FactoryOutcome.gcRoutine p.1 p.2

/-- The operations of the module that act on an already-constructed routine,
for reasoning about arbitrary operation sequences. -/
inductive Op where
  | observeZeroRefCount
  | deleteFromGC
  | markRequiredObjects
  | aboutToDie
deriving DecidableEq

/-- A routine together with its environment: the code unit it may reference
and the log of objects reported to the tracer so far. -/
structure World where
  routine : GCAwareJITStubRoutine
  cb : CodeBlock
  visited : List Nat
deriving DecidableEq

/-- Outcome of running operations on a world: the routine survives, the
routine was destroyed (environment survives), or an assertion fired. -/
inductive Outcome where
  | ok (w : World)
  | deleted (cb : CodeBlock) (visited : List Nat)
  | assertionFailure
deriving DecidableEq

/-- One operation applied to a world, dispatching to the module's
functions. -/
def stepOp (w : World) : Op → Outcome
  | Op.observeZeroRefCount =>
    match observeZeroRefCount w.routine w.cb with
    | StepResult.ok r cb => Outcome.ok ⟨r, cb, w.visited⟩
    | StepResult.deleted cb => Outcome.deleted cb w.visited
    | StepResult.assertionFailure => Outcome.assertionFailure
  | Op.deleteFromGC =>
    match deleteFromGC w.routine w.cb with
    | StepResult.ok r cb => Outcome.ok ⟨r, cb, w.visited⟩
    | StepResult.deleted cb => Outcome.deleted cb w.visited
    | StepResult.assertionFailure => Outcome.assertionFailure
  | Op.markRequiredObjects =>
    Outcome.ok ⟨w.routine, w.cb, markRequiredObjectsInternal w.routine w.visited⟩
  | Op.aboutToDie =>
    Outcome.ok ⟨aboutToDie w.routine, w.cb, w.visited⟩

/-- A sequence of operations, stopping at destruction or assertion failure. -/
def runOps (w : World) : List Op → Outcome
  | [] => Outcome.ok w
  | op :: ops =>
    match stepOp w op with
    | Outcome.ok w2 => runOps w2 ops
    | out => out

/-- Claim C1: `deleteFromGC()` destroys the routine exactly when
refcount == 0, isJettisoned == true and mayBeExecuting == false all hold;
when any of the three conditions is false it is a fatal contract violation
detected by assertion, not a recoverable state change. -/
theorem C1_deleteFromGC_contract (r : GCAwareJITStubRoutine) (cb : CodeBlock) :
    (deleteFromGC r cb = StepResult.deleted cb ↔
      (r.m_refCount = 0 ∧ r.m_isJettisoned = true ∧ r.m_mayBeExecuting = false)) ∧
    (deleteFromGC r cb = StepResult.assertionFailure ↔
      ¬(r.m_refCount = 0 ∧ r.m_isJettisoned = true ∧ r.m_mayBeExecuting = false)) := by
  unfold deleteFromGC
  by_cases h1 : r.m_isJettisoned = true <;>
    by_cases h2 : r.m_refCount = 0 <;>
      by_cases h3 : r.m_mayBeExecuting = false <;>
        simp_all

/-- Claim C2: when a routine whose `isJettisoned` flag is false has its
refcount drop from one to zero via `release()`, `observeZeroRefCount()`
fires, sets `isJettisoned := true` in that same step, and the routine is not
destroyed (it survives awaiting the collector's `deleteFromGC()`); this holds
in particular with `mayBeExecuting = true`. -/
theorem C2_observeZeroRefCount_jettisons (r : GCAwareJITStubRoutine)
    (cb : CodeBlock) (hj : r.m_isJettisoned = false) (hrc : r.m_refCount = 1) :
    ∃ r2 cb2, release r cb = StepResult.ok r2 cb2 ∧
      r2.m_isJettisoned = true ∧ r2.m_refCount = 0 ∧
      r2.m_mayBeExecuting = r.m_mayBeExecuting := by
  unfold release
  rw [hrc]
  simp only [OfNat.ofNat_ne_zero, if_false]
  unfold observeZeroRefCount observeZeroRefCountBase
  cases hk : r.kind with
  | gcAware => simp_all
  | markingOne o => simp_all
  | withExceptionHandler backRef i =>
    cases backRef <;> simp_all

/-- Witness for C2 at a concrete routine with refcount 1,
mayBeExecuting = true, isJettisoned = false. -/
theorem C2_witness :
    ∃ r2 cb2,
      release ⟨1, true, false, StubKind.gcAware⟩ ⟨true, [], []⟩ =
        StepResult.ok r2 cb2 ∧
      r2.m_isJettisoned = true ∧ r2.m_refCount = 0 ∧
      r2.m_mayBeExecuting = (true : Bool) :=
  C2_observeZeroRefCount_jettisons ⟨1, true, false, StubKind.gcAware⟩
    ⟨true, [], []⟩ rfl rfl

/-- Claim C3: if `observeZeroRefCount()` fires on a routine already marked
jettisoned (registry torn down by an external shutdown path before the
refcount reached zero), the routine self-destructs immediately — the result
is destruction, not a state awaiting a collector sweep. -/
theorem C3_observeZeroRefCount_shutdown_deletes (r : GCAwareJITStubRoutine)
    (cb : CodeBlock) (hj : r.m_isJettisoned = true) :
    ∃ cb2, observeZeroRefCount r cb = StepResult.deleted cb2 := by
  unfold observeZeroRefCount observeZeroRefCountBase
  cases hk : r.kind with
  | gcAware => simp_all
  | markingOne o => simp_all
  | withExceptionHandler backRef i =>
    cases backRef <;> simp_all

/-- Witness for C3 at a concrete jettisoned routine. -/
theorem C3_witness :
    ∃ cb2,
      observeZeroRefCount ⟨0, false, true, StubKind.gcAware⟩ ⟨true, [], []⟩ =
        StepResult.deleted cb2 :=
  C3_observeZeroRefCount_shutdown_deletes ⟨0, false, true, StubKind.gcAware⟩
    ⟨true, [], []⟩ rfl

/-- Helper: a single operation that leaves the routine alive preserves a true
`isJettisoned` flag. -/
theorem stepOp_jettisoned_mono (w : World) (op : Op) (w2 : World)
    (hj : w.routine.m_isJettisoned = true) (h : stepOp w op = Outcome.ok w2) :
    w2.routine.m_isJettisoned = true := by
  cases op with
  | observeZeroRefCount =>
    unfold stepOp observeZeroRefCount observeZeroRefCountBase at h
    cases hk : w.routine.kind with
    | gcAware => simp_all
    | markingOne o => simp_all
    | withExceptionHandler backRef i => cases backRef <;> simp_all
  | deleteFromGC =>
    unfold stepOp deleteFromGC at h
    by_cases hc : (w.routine.m_isJettisoned && w.routine.m_refCount == 0 &&
        !w.routine.m_mayBeExecuting) = true
    · rw [if_pos hc] at h
      simp at h
    · rw [if_neg hc] at h
      simp at h
  | markRequiredObjects =>
    unfold stepOp at h
    cases h
    exact hj
  | aboutToDie =>
    unfold stepOp at h
    cases h
    unfold aboutToDie
    cases hk : w.routine.kind <;> simp [hk, hj]

/-- Helper: along any sequence of operations that leaves the routine alive, a
true `isJettisoned` flag stays true. -/
theorem runOps_jettisoned_mono (ops : List Op) (w w2 : World)
    (hj : w.routine.m_isJettisoned = true) (h : runOps w ops = Outcome.ok w2) :
    w2.routine.m_isJettisoned = true := by
  induction ops generalizing w with
  | nil =>
    unfold runOps at h
    cases h
    exact hj
  | cons op ops ih =>
    unfold runOps at h
    cases hstep : stepOp w op with
    | ok w3 =>
      rw [hstep] at h
      exact ih w3 (stepOp_jettisoned_mono w op w3 hj hstep) h
    | deleted cb visited => rw [hstep] at h; cases h
    | assertionFailure => rw [hstep] at h; cases h

/-- Claim C4: `isJettisoned` is monotonic.  Every constructed routine starts
with the flag false, and once the flag is true, no sequence of the module's
operations (`observeZeroRefCount`, `deleteFromGC`, the trace hook,
`aboutToDie`) that leaves the routine alive ever makes it false again. -/
theorem C4_isJettisoned_monotonic :
    (∀ rc reg id, ((GCAwareJITStubRoutineConstruct rc reg id).1).m_isJettisoned
      = false) ∧
    (∀ rc o reg id, ((MarkingConstruct rc o reg id).1).m_isJettisoned = false) ∧
    (∀ rc cb i reg id r reg2,
      ExceptionHandlerConstruct rc cb i reg id = ConstructResult.ok r reg2 →
      r.m_isJettisoned = false) ∧
    (∀ ops w w2, w.routine.m_isJettisoned = true →
      runOps w ops = Outcome.ok w2 → w2.routine.m_isJettisoned = true) := by
  refine ⟨fun rc reg id => rfl, fun rc o reg id => rfl, ?_, ?_⟩
  · intro rc cb i reg id r reg2 h
    unfold ExceptionHandlerConstruct at h
    by_cases hc : handlerForIndex cb i = true
    · rw [if_pos hc] at h
      injection h with h1 h2
      subst h1
      rfl
    · rw [if_neg hc] at h
      simp at h
  · exact fun ops w w2 => runOps_jettisoned_mono ops w w2

/-- Witness for C4: a concrete jettisoned routine stays jettisoned across a
concrete operation sequence. -/
theorem C4_witness :
    (⟨⟨0, false, true, StubKind.gcAware⟩, ⟨true, [], []⟩, []⟩ :
        World).routine.m_isJettisoned = true :=
  C4_isJettisoned_monotonic.2.2.2 [Op.markRequiredObjects, Op.aboutToDie]
    ⟨⟨0, false, true, StubKind.gcAware⟩, ⟨true, [], []⟩, []⟩
    ⟨⟨0, false, true, StubKind.gcAware⟩, ⟨true, [], []⟩, []⟩
    (by decide) (by decide)

/-- Claim C7: `aboutToDie()` is idempotent — applying it twice yields exactly
the state of applying it once — and its only effect is clearing the
exception-handler variant's back-reference: refcount, lifecycle flags, the
call-site index, and the other variants' data are untouched. -/
theorem C7_aboutToDie_idempotent (r : GCAwareJITStubRoutine) :
    aboutToDie (aboutToDie r) = aboutToDie r ∧
    (aboutToDie r).m_refCount = r.m_refCount ∧
    (aboutToDie r).m_isJettisoned = r.m_isJettisoned ∧
    (aboutToDie r).m_mayBeExecuting = r.m_mayBeExecuting ∧
    (∀ b i, r.kind = StubKind.withExceptionHandler b i →
      (aboutToDie r).kind = StubKind.withExceptionHandler false i) := by
  unfold aboutToDie
  cases hk : r.kind with
  | gcAware => simp_all
  | markingOne o => simp_all
  | withExceptionHandler backRef i => simp_all

/-- Witness for C7 at a concrete exception-handler routine with a live
back-reference. -/
theorem C7_witness :
    (aboutToDie ⟨2, false, false, StubKind.withExceptionHandler true 4⟩).kind =
      StubKind.withExceptionHandler false 4 :=
  (C7_aboutToDie_idempotent
      ⟨2, false, false, StubKind.withExceptionHandler true 4⟩).2.2.2.2
    true 4 rfl

/-- Claim C9: one invocation of the trace hook on a marking routine holding
object O reports O to the tracer exactly once and leaves the routine's own
state unchanged; on a plain GC-aware routine the trace hook is a no-op
reporting nothing. -/
theorem C9_trace_hook (w : World) :
    (∀ o, w.routine.kind = StubKind.markingOne o →
      stepOp w Op.markRequiredObjects =
        Outcome.ok ⟨w.routine, w.cb, w.visited ++ [o]⟩) ∧
    (w.routine.kind = StubKind.gcAware →
      stepOp w Op.markRequiredObjects =
        Outcome.ok ⟨w.routine, w.cb, w.visited⟩) := by
  constructor
  · intro o ho
    unfold stepOp markRequiredObjectsInternal
    rw [ho]
  · intro ho
    unfold stepOp markRequiredObjectsInternal
    rw [ho]

/-- Witness for C9: a concrete marking routine holding object 7 appends
exactly 7 to an empty visit log. -/
theorem C9_witness :
    stepOp ⟨⟨1, false, false, StubKind.markingOne 7⟩, ⟨true, [], []⟩, []⟩
        Op.markRequiredObjects =
      Outcome.ok ⟨⟨1, false, false, StubKind.markingOne 7⟩, ⟨true, [], []⟩, [7]⟩ :=
  (C9_trace_hook
      ⟨⟨1, false, false, StubKind.markingOne 7⟩, ⟨true, [], []⟩, []⟩).1 7 rfl

/-- Claim C10: after `aboutToDie()` has nulled the back-reference, a later
`observeZeroRefCount()` performs no handler-table or call-site-metadata
removal: it reduces to the base teardown and the code unit's state is left
exactly as it was. -/
theorem C10_no_cleanup_after_aboutToDie (r : GCAwareJITStubRoutine)
    (cb : CodeBlock) (b : Bool) (i : Nat)
    (hk : r.kind = StubKind.withExceptionHandler b i) :
    observeZeroRefCount (aboutToDie r) cb =
      observeZeroRefCountBase (aboutToDie r) cb ∧
    (∀ r2 cb2, observeZeroRefCount (aboutToDie r) cb = StepResult.ok r2 cb2 →
      cb2 = cb) ∧
    (∀ cb2, observeZeroRefCount (aboutToDie r) cb = StepResult.deleted cb2 →
      cb2 = cb) := by
  have hdead : (aboutToDie r).kind = StubKind.withExceptionHandler false i := by
    unfold aboutToDie
    rw [hk]
  refine ⟨?_, ?_, ?_⟩
  · unfold observeZeroRefCount
    rw [hdead]
    simp
  · intro r2 cb2 h
    unfold observeZeroRefCount at h
    rw [hdead] at h
    unfold observeZeroRefCountBase at h
    by_cases h1 : (aboutToDie r).m_isJettisoned = true <;>
      by_cases h2 : (aboutToDie r).m_refCount = 0 <;> simp_all
  · intro cb2 h
    unfold observeZeroRefCount at h
    rw [hdead] at h
    unfold observeZeroRefCountBase at h
    by_cases h1 : (aboutToDie r).m_isJettisoned = true <;>
      by_cases h2 : (aboutToDie r).m_refCount = 0 <;> simp_all

/-- Witness for C10: a concrete routine whose back-reference was cleared by
`aboutToDie()` leaves a concrete nonempty handler table untouched. -/
theorem C10_witness :
    observeZeroRefCount
        (aboutToDie ⟨0, false, false, StubKind.withExceptionHandler true 3⟩)
        ⟨true, [3], [3]⟩ =
      observeZeroRefCountBase
        (aboutToDie ⟨0, false, false, StubKind.withExceptionHandler true 3⟩)
        ⟨true, [3], [3]⟩ :=
  (C10_no_cleanup_after_aboutToDie
      ⟨0, false, false, StubKind.withExceptionHandler true 3⟩
      ⟨true, [3], [3]⟩ true 3 rfl).1

/-- Claim C5: an exception-handler routine whose back-reference is still live
when its refcount reaches zero removes its call-site index from the code
unit's auxiliary metadata, removes the handler-table entry for that call
site, and nulls the back-reference: releasing such a routine from any
positive refcount down to zero leaves its entry absent from the handler
table (and from the call-site metadata), with the routine surviving to await
the collector. -/
theorem C5_release_to_zero_removes_handler (n i : Nat)
    (r : GCAwareJITStubRoutine) (cb : CodeBlock)
    (hk : r.kind = StubKind.withExceptionHandler true i)
    (hj : r.m_isJettisoned = false)
    (hrc : r.m_refCount = n + 1) :
    ∃ r2 cb2, releaseN (n + 1) r cb = StepResult.ok r2 cb2 ∧
      r2.kind = StubKind.withExceptionHandler false i ∧
      i ∉ cb2.handlerTable ∧ i ∉ cb2.dfgCallSiteIndices := by
  induction n generalizing r cb with
  | zero =>
    refine ⟨{ r with
        m_refCount := 0,
        m_isJettisoned := true,
        kind := StubKind.withExceptionHandler false i },
      removeExceptionHandlerForCallSite (removeCallSiteIndex cb i) i,
      ?_, rfl, ?_, ?_⟩
    · simp [releaseN, release, observeZeroRefCount, observeZeroRefCountBase,
        hrc, hj, hk]
    · simp [removeExceptionHandlerForCallSite, removeCallSiteIndex,
        List.mem_filter]
    · simp [removeExceptionHandlerForCallSite, removeCallSiteIndex,
        List.mem_filter]
  | succ m ih =>
    have hrel : release r cb =
        StepResult.ok { r with m_refCount := m + 1 } cb := by
      unfold release
      rw [hrc]
      simp
    obtain ⟨r2, cb2, hrun, hkind2, hht, hdf⟩ :=
      ih { r with m_refCount := m + 1 } cb hk hj rfl
    refine ⟨r2, cb2, ?_, hkind2, hht, hdf⟩
    unfold releaseN
    rw [hrel]
    exact hrun

/-- Witness for C5: a concrete routine with refcount 2 and live handler entry
5, released twice, leaves 5 absent from the handler table. -/
theorem C5_witness :
    ∃ r2 cb2,
      releaseN 2 ⟨2, false, false, StubKind.withExceptionHandler true 5⟩
          ⟨true, [5, 9], [5, 7]⟩ = StepResult.ok r2 cb2 ∧
      r2.kind = StubKind.withExceptionHandler false 5 ∧
      (5 : Nat) ∉ cb2.handlerTable ∧ (5 : Nat) ∉ cb2.dfgCallSiteIndices :=
  C5_release_to_zero_removes_handler 1 5
    ⟨2, false, false, StubKind.withExceptionHandler true 5⟩
    ⟨true, [5, 9], [5, 7]⟩ rfl rfl rfl

/-- Counterexample to claim C6 as stated: with callsOut true, no owner
object, an optimizing-tier code unit, but no registered handler entry for
the call site, the factory does not return an ExceptionHandlingStubRoutine —
the constructor's defensive assertion on `handlerForIndex` fires (a fatal
contract violation the claim does not allow for). -/
theorem C6_counterexample :
    createJITStubRoutine true none (some ⟨true, [], []⟩) 0 1 [] 0 =
      FactoryOutcome.assertionFailure := by
  rfl

/-- Claim C6 (amended): the factory's decision table.  callsOut false gives a
plain StubRoutine; a present handler code unit gives an
ExceptionHandlingStubRoutine provided the owner object is absent, the code
unit's tier is optimizing, and the code unit already has a handler entry for
the call site — violating any of these three preconditions is a fatal
contract violation; otherwise a present owner object gives a
MarkingStubRoutine holding that one object, and otherwise a plain
GCAwareStubRoutine. -/
theorem C6_factory_decision_table (makesCalls : Bool) (object : Option Nat)
    (cbOpt : Option CodeBlock) (idx rc : Nat) (reg : List Nat) (id : Nat) :
    (makesCalls = false →
      createJITStubRoutine makesCalls object cbOpt idx rc reg id =
        FactoryOutcome.plainStub reg) ∧
    (∀ cb, makesCalls = true → cbOpt = some cb → object = none →
      cb.jitTypeIsOptimizing = true → handlerForIndex cb idx = true →
      createJITStubRoutine makesCalls object cbOpt idx rc reg id =
        FactoryOutcome.gcRoutine
          ⟨rc, false, false, StubKind.withExceptionHandler true idx⟩
          (registryAdd reg id)) ∧
    (∀ cb, makesCalls = true → cbOpt = some cb →
      (object.isSome = true ∨ cb.jitTypeIsOptimizing = false ∨
        handlerForIndex cb idx = false) →
      createJITStubRoutine makesCalls object cbOpt idx rc reg id =
        FactoryOutcome.assertionFailure) ∧
    (∀ o, makesCalls = true → cbOpt = none → object = some o →
      createJITStubRoutine makesCalls object cbOpt idx rc reg id =
        FactoryOutcome.gcRoutine ⟨rc, false, false, StubKind.markingOne o⟩
          (registryAdd reg id)) ∧
    (makesCalls = true → cbOpt = none → object = none →
      createJITStubRoutine makesCalls object cbOpt idx rc reg id =
        FactoryOutcome.gcRoutine ⟨rc, false, false, StubKind.gcAware⟩
          (registryAdd reg id)) := by
  refine ⟨?_, ?_, ?_, ?_, ?_⟩
  · intro h
    subst h
    rfl
  · intro cb hm hcb ho hopt hh
    subst hm hcb ho
    simp [createJITStubRoutine, ExceptionHandlerConstruct, hopt, hh]
  · intro cb hm hcb hbad
    subst hm hcb
    rcases hbad with hbad | hbad | hbad
    · cases object with
      | none => simp at hbad
      | some o => simp [createJITStubRoutine]
    · simp [createJITStubRoutine, hbad]
    · by_cases hobj : object.isSome = true
      · cases object with
        | none => simp at hobj
        | some o => simp [createJITStubRoutine]
      · cases object with
        | some o => simp at hobj
        | none =>
          by_cases hopt : cb.jitTypeIsOptimizing = true
          · simp [createJITStubRoutine, ExceptionHandlerConstruct, hopt, hbad]
          · simp [createJITStubRoutine, hopt]
  · intro o hm hcb ho
    subst hm hcb ho
    rfl
  · intro hm hcb ho
    subst hm hcb ho
    rfl

/-- Witness for C6 at concrete inputs exercising the exception-handler row
with its handler-entry precondition satisfied. -/
theorem C6_witness :
    createJITStubRoutine true none (some ⟨true, [3], [3]⟩) 3 1 [] 0 =
      FactoryOutcome.gcRoutine
        ⟨1, false, false, StubKind.withExceptionHandler true 3⟩
        (registryAdd [] 0) :=
  (C6_factory_decision_table true none (some ⟨true, [3], [3]⟩) 3 1 [] 0).2.1
    ⟨true, [3], [3]⟩ rfl rfl rfl rfl rfl

/-- Claim C8: a factory call with callsOut false returns the plain
(non-GC-registered) variant and leaves the RootRegistry exactly as it was;
every GC-aware construction (plain GC-aware, marking, exception-handler)
adds the new routine's identity to the RootRegistry exactly once, at
construction time. -/
theorem C8_registry_effects (rc : Nat) (reg : List Nat) (id : Nat) :
    (∀ object cbOpt idx,
      createJITStubRoutine false object cbOpt idx rc reg id =
        FactoryOutcome.plainStub reg) ∧
    ((GCAwareJITStubRoutineConstruct rc reg id).2.count id =
      reg.count id + 1) ∧
    (∀ o, (MarkingConstruct rc o reg id).2.count id = reg.count id + 1) ∧
    (∀ cb i r reg2,
      ExceptionHandlerConstruct rc cb i reg id = ConstructResult.ok r reg2 →
      reg2.count id = reg.count id + 1) := by
  refine ⟨fun object cbOpt idx => rfl, ?_, fun o => ?_, ?_⟩
  · simp [GCAwareJITStubRoutineConstruct, registryAdd]
  · simp [MarkingConstruct, registryAdd]
  · intro cb i r reg2 h
    unfold ExceptionHandlerConstruct at h
    by_cases hc : handlerForIndex cb i = true
    · rw [if_pos hc] at h
      injection h with h1 h2
      subst h2
      simp [registryAdd]
    · rw [if_neg hc] at h
      simp at h

/-- Witness for C8: a concrete exception-handler construction appends the new
identity to a concrete registry exactly once. -/
theorem C8_witness :
    ([7, 9, 4] : List Nat).count 4 = ([7, 9] : List Nat).count 4 + 1 :=
  (C8_registry_effects 1 [7, 9] 4).2.2.2 ⟨true, [2], [2]⟩ 2
    ⟨1, false, false, StubKind.withExceptionHandler true 2⟩ [7, 9, 4] (by decide)

end JSC
